import Mathlib

/-!
Shallow embedding of the core of the `ivaldi` field-telemetry client:
the binary packet codec in `src/ivaldi/link.py`, the edge-triggered
counter devices in `src/ivaldi/devices/counter.py` and
`src/ivaldi/raingauge.py`, and the periodic scheduler with cooperative
cancellation in `src/ivaldi/utils.py`.

Modelling conventions:
* Python machine-level values that `struct` handles as 32-bit quantities
  (IEEE-754 single floats and the one unsigned 32-bit integer of the
  format `"!7fI5f"`) are modelled by their 32-bit patterns, as natural
  numbers below `2 ^ 32`; a byte is `Fin 256`.
* Monotonic clock readings and physical quantities are exact rationals;
  a call of a Python function that reads `time.monotonic()` several
  times is modelled with a single instant `now`.
* Python `round(x, p)` (round-half-even to `p` decimal digits) is
  modelled exactly on rationals by `round_py`.
* Fallible Python code is modelled with `Except` / `Option`; a division
  whose denominator is zero (Python `ZeroDivisionError`) is an error
  branch, never a value.
-/

namespace Ivaldi

/-! ### Bytes and 32-bit big-endian words (`struct` with format `"!"`) -/

abbrev Byte := Fin 256

/-- Truncate a natural number to one byte. -/
def byte (n : Nat) : Byte := ⟨n % 256, Nat.mod_lt n (by decide)⟩

/-- From `link.py` line 19: `DATA_FORMAT = "!7fI5f"` — big-endian, 7 single
floats, one unsigned 32-bit integer, 5 single floats: 13 four-byte
fields. -/
def DATA_FORMAT_field_count : Nat := 13

/-- Value of `struct.calcsize(DATA_FORMAT)`: 13 fields of 4 bytes each. -/
def struct_calcsize : Nat := 4 * DATA_FORMAT_field_count

/-- Big-endian 4-byte serialization of one 32-bit field, as `struct.pack`
writes it for each `f` or `I` item of `"!7fI5f"`. -/
def packWord (w : Nat) : List Byte :=
  [byte (w / 2 ^ 24), byte (w / 2 ^ 16), byte (w / 2 ^ 8), byte w]

/-- Big-endian read of one 32-bit field, as `struct.unpack` reads each
item of `"!7fI5f"`. -/
def unpackWord (b0 b1 b2 b3 : Byte) : Nat :=
  b0.val * 2 ^ 24 + b1.val * 2 ^ 16 + b2.val * 2 ^ 8 + b3.val

/-- Model of `struct.pack(DATA_FORMAT, *data_to_pack)` at `link.py` line 157:
each field is laid out big-endian, 4 bytes, in list order, with no
delimiter or padding appended. -/
def struct_pack (ws : List Nat) : List Byte :=
  ws.flatMap packWord

/-- Greedy 4-byte chunking used by `struct.unpack` once the size check
has passed. -/
def unpackWords : List Byte → List Nat
  | b0 :: b1 :: b2 :: b3 :: rest => unpackWord b0 b1 b2 b3 :: unpackWords rest
  | _ => []

/-- Error raised by the `struct` module (`struct.error`): for
`unpack`, exactly a size mismatch between the buffer and the format. -/
inductive StructError where
  | sizeMismatch
deriving DecidableEq, Repr

/-- Model of `struct.unpack(DATA_FORMAT, recieved_data)` at `link.py` line 56:
raises `struct.error` iff the buffer length differs from
`struct.calcsize(DATA_FORMAT) = 52`; otherwise returns the 13 fields in
declared order. -/
def struct_unpack (bs : List Byte) : Except StructError (List Nat) :=
  if bs.length = struct_calcsize then Except.ok (unpackWords bs)
  else Except.error StructError.sizeMismatch

/-- Python runtime errors that the receiver path can surface. -/
inductive PyError where
  | attributeError
deriving DecidableEq, Repr

/-- From `monitor.py` lines 19-33: the module-level name table is `VARIABLES`,
a dict whose keys are these 13 field names (in dict insertion order). -/
def monitor_VARIABLES_keys : List String :=
  ["time_elapsed_s", "temperature_bmp280_C", "pressure_hPa", "altitude_m",
   "temperature_sht31d_C", "relative_humidity", "wind_gust_m_s_3s",
   "wind_sustained_m_s_10min", "wind_direction_deg_n", "rain_mm",
   "rain_rate_mm_h", "soil_temperature_C", "soil_moisture_raw"]

/-- The attribute `ivaldi.monitor.VARIABLE_NAMES` looked up at
`link.py` line 65. `monitor.py` defines no such name (it defines
`VARIABLES`), so the lookup yields no value: accessing it raises
`AttributeError` at run time. -/
def monitor_VARIABLE_NAMES : Option (List String) := none

/-- Model of `recieve_data_packet` (`link.py` lines 32-71), on the bytes
the serial read returned (`serial_port.read(size=52)` can return
between 0 and 52 bytes under its timeout):
* an empty read returns `None` (`if not recieved_data: return None`);
* a buffer of the wrong length makes `struct.unpack` raise
  `struct.error`, which the `try/except` swallows (`pass`), and the
  function falls through returning `None`;
* on a successful unpack it zips `ivaldi.monitor.VARIABLE_NAMES` with
  the unpacked tuple — and that attribute lookup fails, so this branch
  raises `AttributeError`.
The pretty-printing and CSV side effects are outside the model. -/
def recieve_data_packet (recieved_data : List Byte) :
    Except PyError (Option (List (String × Nat))) :=
  if recieved_data.isEmpty then Except.ok none
  else
    match struct_unpack recieved_data with
    | Except.error _ => Except.ok none
    | Except.ok unpacked_data =>
        match monitor_VARIABLE_NAMES with
        | none => Except.error PyError.attributeError
        | some names => Except.ok (some (names.zip unpacked_data))

/-- From `link.py` lines 142-156: the 13 values of `data_to_pack`, in the
order `send_data_packet` lists them (each given here as the 32-bit
pattern `struct.pack` will write for it). -/
def data_to_pack (time_elapsed_s rain_total rain_average wind_average
    wind_average_60s wind_direction soil_temperature soil_moisture
    pressure_temperature pressure altitude humidity_temperature
    relative_humidity : Nat) : List Nat :=
  [time_elapsed_s, rain_total, rain_average, wind_average,
   wind_average_60s, wind_direction, soil_temperature, soil_moisture,
   pressure_temperature, pressure, altitude, humidity_temperature,
   relative_humidity]

/-! ### Python `round` on exact rationals -/

/-- Round to the nearest integer, ties to the even integer, as Python's
built-in `round` does (modelled on exact rationals). -/
def roundHalfEven (x : ℚ) : ℤ :=
  if x - ⌊x⌋ < 1 / 2 then ⌊x⌋
  else if 1 / 2 < x - ⌊x⌋ then ⌊x⌋ + 1
  else if ⌊x⌋ % 2 = 0 then ⌊x⌋ else ⌊x⌋ + 1

/-- Python `round(x, p)`: round-half-even to `p` decimal digits. -/
def round_py (p : Nat) (x : ℚ) : ℚ :=
  (roundHalfEven (x * 10 ^ p) : ℚ) / 10 ^ p

/-! ### `devices/counter.py`: the `CountDevice` edge counter -/

/-- From `counter.py` line 14: `PRECISION_DEFAULT = 2`. -/
def PRECISION_DEFAULT : Nat := 2

/-- From `counter.py` line 13: `CONVERSION_FACTOR = 1`. -/
def CONVERSION_FACTOR : ℚ := 1

/-- From `counter.py` line 18: `MM_PER_TIP = 0.2`. -/
def MM_PER_TIP : ℚ := 1 / 5

/-- From `counter.py` line 15: `S_IN_HR = 3600`. -/
def S_IN_HR : ℚ := 3600

/-- The mutable state of `counter.py`'s `CountDevice` (the GPIO pin and
device handle play no part in the counting semantics). -/
structure CountDevice where
  conversion_factor : ℚ
  count : Nat
  count_times : List ℚ
  start_time : ℚ
deriving DecidableEq, Repr

/-- Model of `CountDevice.__init__` at the monotonic instant `now`: zero count,
empty timestamp history, `start_time = time.monotonic()`. -/
def CountDevice.init (now : ℚ) (conversion_factor : ℚ) : CountDevice :=
  ⟨conversion_factor, 0, [], now⟩

/-- Model of `_count` (`counter.py` lines 48-51), the edge callback: increment the
count and append the current monotonic time. -/
def CountDevice.record_event (st : CountDevice) (now : ℚ) : CountDevice :=
  ⟨st.conversion_factor, st.count + 1, st.count_times ++ [now], st.start_time⟩

/-- A sequence of edge events at the given monotonic instants. -/
def CountDevice.record_events (st : CountDevice) (ts : List ℚ) : CountDevice :=
  ts.foldl CountDevice.record_event st

/-- Model of `output_value_total` (`counter.py` lines 58-61):
`round(count * conversion_factor, PRECISION_DEFAULT)`. -/
def CountDevice.output_value_total (st : CountDevice) : ℚ :=
  round_py PRECISION_DEFAULT (st.count * st.conversion_factor)

/-- Model of `output_value_average` (`counter.py` lines 67-86), evaluated at the
monotonic instant `now`:
* `delta_t = now - start_time`; an omitted `period_s` becomes `delta_t`
  (the `None` branch also assigns `output_value_period =
  self.output_value_total`, but the next statement unconditionally
  overwrites that value, so the assignment is dead);
* `output_value_period` is the number of recorded timestamps strictly
  greater than `now - period_s`;
* the result is `0` when `period_s <= 0`; otherwise Python divides by
  `min(period_s, delta_t)`, which raises `ZeroDivisionError` when that
  minimum is zero (modelled as `none`), and otherwise rounds the
  quotient to `PRECISION_DEFAULT` digits. -/
def CountDevice.output_value_average (st : CountDevice) (now : ℚ)
    (period? : Option ℚ) : Option ℚ :=
  if period?.getD (now - st.start_time) ≤ 0 then some 0
  else if min (period?.getD (now - st.start_time)) (now - st.start_time) = 0 then none
  else some (round_py PRECISION_DEFAULT
    (((st.count_times.filter
        (fun t => now - period?.getD (now - st.start_time) < t)).length : ℚ) /
      min (period?.getD (now - st.start_time)) (now - st.start_time)))

/-- Model of `reset_count` (`counter.py` lines 88-97): zero the count only; the
timestamp history and the start time are left as they are. -/
def CountDevice.reset_count (st : CountDevice) : CountDevice :=
  ⟨st.conversion_factor, 0, st.count_times, st.start_time⟩

/-- Model of `reset_time` (`counter.py` lines 99-108): re-stamp the start time
only. -/
def CountDevice.reset_time (st : CountDevice) (now : ℚ) : CountDevice :=
  ⟨st.conversion_factor, st.count, st.count_times, now⟩

/-- Model of `reset` (`counter.py` lines 110-120): `reset_count` then
`reset_time`. -/
def CountDevice.reset (st : CountDevice) (now : ℚ) : CountDevice :=
  CountDevice.reset_time (CountDevice.reset_count st) now

/-! ### `raingauge.py`: the standalone `TippingBucket` -/

/-- From `raingauge.py` line 19: `RAIN_PRECISION_MM = 1`. -/
def RAIN_PRECISION_MM : Nat := 1

/-- The mutable state of `raingauge.py`'s `TippingBucket` (no timestamp
history: only a tip count and a start time). -/
structure TippingBucket where
  mm_per_tip : ℚ
  tips : Nat
  start_time : ℚ
deriving DecidableEq, Repr

/-- Model of `TippingBucket.__init__` at the monotonic instant `now`;
the class default for `mm_per_tip` is `MM_PER_TIP = 0.2`. -/
def TippingBucket.init (now : ℚ) (mm_per_tip : ℚ) : TippingBucket :=
  ⟨mm_per_tip, 0, now⟩

/-- Model of `_count_tip` (`raingauge.py` lines 68-70). -/
def TippingBucket.count_tip (st : TippingBucket) : TippingBucket :=
  ⟨st.mm_per_tip, st.tips + 1, st.start_time⟩

/-- Repeat `count_tip` a given number of times. -/
def TippingBucket.count_tips (st : TippingBucket) : Nat → TippingBucket
  | 0 => st
  | n + 1 => TippingBucket.count_tip (TippingBucket.count_tips st n)

/-- Model of `rain_mm` (`raingauge.py` lines 77-80):
`round(tips * mm_per_tip, RAIN_PRECISION_MM)` — one decimal place. -/
def TippingBucket.rain_mm (st : TippingBucket) : ℚ :=
  round_py RAIN_PRECISION_MM (st.tips * st.mm_per_tip)

/-! ### `utils.py`: the periodic scheduler `run_periodic` -/

/-- From `utils.py` line 13: `PERIOD_S_DEFAULT = 1`. -/
def PERIOD_S_DEFAULT : ℚ := 1

/-- From `utils.py` line 15: `SLEEP_TICK_S = 0.5`. -/
def SLEEP_TICK_S : ℚ := 1 / 2

/-- From `utils.py` line 16: `SLEEP_TIME_MINIMUM = 0.01`. -/
def SLEEP_TIME_MINIMUM : ℚ := 1 / 100

/-- From `utils.py` lines 48-49: the wakeup time after the work call, given
the deadline `wakeup_time = tick_start + period_s` computed at tick
start and the clock reading `now` right after `func` returns: if the
deadline has passed, the loop re-arms to `now + SLEEP_TIME_MINIMUM`. -/
def next_wakeup (tick_start period_s now : ℚ) : ℚ :=
  if tick_start + period_s ≤ now then now + SLEEP_TIME_MINIMUM
  else tick_start + period_s

/-- From `utils.py` lines 51-52: the argument of each `time.sleep` call,
`max(min(SLEEP_TICK_S, wakeup_time - time.monotonic()), 0)`. -/
def sleep_amount (wakeup_time now : ℚ) : ℚ :=
  max (min SLEEP_TICK_S (wakeup_time - now)) 0

/-- The inner sleep loop of `utils.py` lines 50-52 in the run with no
cancellation signal, with `time.sleep` advancing the monotonic clock by
exactly its argument: repeatedly sleep `sleep_amount` until
`wakeup_time <= now`. `fuel` bounds the number of iterations so the
model is a total function; every run below is used with enough fuel. -/
def sleepLoop (wakeup_time : ℚ) (now : ℚ) : Nat → ℚ
  | 0 => now
  | fuel + 1 =>
      if wakeup_time ≤ now then now
      else sleepLoop wakeup_time (now + sleep_amount wakeup_time now) fuel

/-- One full iteration of the outer loop of `_run_periodic` in the
signal-free run with zero-duration work: the tick starting at
`tick_start` computes its deadline, runs `func` (instantaneous), and
sleeps; the result is the start instant of the next tick. -/
def tick_next_start (period_s : ℚ) (fuel : Nat) (tick_start : ℚ) : ℚ :=
  sleepLoop (next_wakeup tick_start period_s tick_start) tick_start fuel

/-- The start instant of the `k`-th tick of the signal-free,
zero-work-duration run of `_run_periodic` that begins at `start`. -/
def kth_tick_start (start period_s : ℚ) (fuel : Nat) : Nat → ℚ
  | 0 => start
  | k + 1 => tick_next_start period_s fuel (kth_tick_start start period_s fuel k)

/-! ### `utils.py` as a state machine, with asynchronous cancellation

To state the cancellation claims the loop is modelled as a labelled
state machine whose interleaved `signal` transition is the
`EXIT_EVENT.set()` performed by `_quit_handler` from the signal
handler. `time.sleep` completes its full argument (PEP 475: a signal
whose handler returns does not shorten the sleep), so a sleep is one
atomic step; the flag may be set between any two steps. -/

/-- Control points of `_run_periodic` (`utils.py` lines 43-52). -/
inductive LoopPhase where
  /-- about to test the outer `while not EXIT_EVENT.is_set()` -/
  | outerCheck
  /-- the call of `func` has returned; about to run the line-48 overrun test -/
  | postWork
  /-- about to test the inner `while` condition on line 50 -/
  | innerCheck
  /-- the outer loop has exited -/
  | finished
deriving DecidableEq, Repr

/-- A configuration of the running loop: the `EXIT_EVENT` flag, the
monotonic clock, the current `wakeup_time`, how many times `func` has
been invoked, and the control point. -/
structure LoopState where
  exitFlag : Bool
  now : ℚ
  wakeup : ℚ
  calls : Nat
  phase : LoopPhase
deriving DecidableEq, Repr

/-- Small-step transitions of `_run_periodic` with period `period_s`.
`signal` may fire at any point; `work` covers line 44 (deadline
computation at tick start) plus the `func` call taking `d ≥ 0` seconds;
the remaining steps are the tests and sleeps of lines 48-52. -/
inductive LoopStep (period_s : ℚ) : LoopState → LoopState → Prop where
  /-- Transition of `_quit_handler`: `EXIT_EVENT.set()`, at any moment. -/
  | signal (s : LoopState) :
      LoopStep period_s s ⟨true, s.now, s.wakeup, s.calls, s.phase⟩
  /-- outer `while` test with the flag set: the loop exits. -/
  | outer_exit (s : LoopState) (hp : s.phase = LoopPhase.outerCheck)
      (hf : s.exitFlag = true) :
      LoopStep period_s s ⟨s.exitFlag, s.now, s.wakeup, s.calls, LoopPhase.finished⟩
  /-- outer `while` test with the flag clear: compute
  `wakeup_time = time.monotonic() + period_s`, then run `func`,
  which takes `d ≥ 0` seconds. -/
  | work (s : LoopState) (d : ℚ) (hd : 0 ≤ d)
      (hp : s.phase = LoopPhase.outerCheck) (hf : s.exitFlag = false) :
      LoopStep period_s s
        ⟨s.exitFlag, s.now + d, s.now + period_s, s.calls + 1, LoopPhase.postWork⟩
  /-- line 48, deadline already passed: re-arm the wakeup time. -/
  | adjust_overrun (s : LoopState) (hp : s.phase = LoopPhase.postWork)
      (hw : s.wakeup ≤ s.now) :
      LoopStep period_s s
        ⟨s.exitFlag, s.now, s.now + SLEEP_TIME_MINIMUM, s.calls, LoopPhase.innerCheck⟩
  /-- line 48, deadline still ahead: keep the wakeup time. -/
  | adjust_ok (s : LoopState) (hp : s.phase = LoopPhase.postWork)
      (hw : s.now < s.wakeup) :
      LoopStep period_s s ⟨s.exitFlag, s.now, s.wakeup, s.calls, LoopPhase.innerCheck⟩
  /-- inner `while` test fails because the flag is set. -/
  | inner_exit_flag (s : LoopState) (hp : s.phase = LoopPhase.innerCheck)
      (hf : s.exitFlag = true) :
      LoopStep period_s s ⟨s.exitFlag, s.now, s.wakeup, s.calls, LoopPhase.outerCheck⟩
  /-- inner `while` test fails because the wakeup time has arrived. -/
  | inner_exit_time (s : LoopState) (hp : s.phase = LoopPhase.innerCheck)
      (hw : s.wakeup ≤ s.now) :
      LoopStep period_s s ⟨s.exitFlag, s.now, s.wakeup, s.calls, LoopPhase.outerCheck⟩
  /-- inner `while` body: one bounded `time.sleep`. -/
  | inner_sleep (s : LoopState) (hp : s.phase = LoopPhase.innerCheck)
      (hf : s.exitFlag = false) (hw : s.now < s.wakeup) :
      LoopStep period_s s
        ⟨s.exitFlag, s.now + sleep_amount s.wakeup s.now, s.wakeup, s.calls,
          LoopPhase.innerCheck⟩

end Ivaldi

namespace Ivaldi

/-! ### Helper lemmas for the codec (shared) -/

theorem unpackWord_packWord (w : Nat) (h : w < 2 ^ 32) :
    unpackWord (byte (w / 2 ^ 24)) (byte (w / 2 ^ 16)) (byte (w / 2 ^ 8))
      (byte w) = w := by
  simp only [unpackWord, byte]
  omega

theorem length_packWord (w : Nat) : (packWord w).length = 4 := rfl

theorem struct_pack_nil : struct_pack [] = [] := rfl

theorem struct_pack_cons (w : Nat) (ws : List Nat) :
    struct_pack (w :: ws) =
      byte (w / 2 ^ 24) :: byte (w / 2 ^ 16) :: byte (w / 2 ^ 8) :: byte w ::
        struct_pack ws := rfl

theorem length_struct_pack (ws : List Nat) :
    (struct_pack ws).length = 4 * ws.length := by
  induction ws with
  | nil => rfl
  | cons w ws ih =>
      rw [struct_pack_cons]
      simp only [List.length_cons, ih]
      omega

theorem unpackWords_struct_pack (ws : List Nat) (hv : ∀ w ∈ ws, w < 2 ^ 32) :
    unpackWords (struct_pack ws) = ws := by
  induction ws with
  | nil => rfl
  | cons w ws ih =>
      have hw : w < 2 ^ 32 := hv w (List.mem_cons_self w ws)
      have hws : ∀ x ∈ ws, x < 2 ^ 32 := fun x hx => hv x (List.mem_cons_of_mem w hx)
      rw [struct_pack_cons, unpackWords, ih hws, unpackWord_packWord w hw]

/-! ### Helper lemmas for the counter devices (shared) -/

theorem record_events_count (ts : List ℚ) :
    ∀ st : CountDevice, (CountDevice.record_events st ts).count = st.count + ts.length := by
  induction ts with
  | nil => intro st; rfl
  | cons t ts ih =>
      intro st
      show (CountDevice.record_events (CountDevice.record_event st t) ts).count = _
      rw [ih]
      simp [CountDevice.record_event]
      omega

theorem record_events_conversion_factor (ts : List ℚ) :
    ∀ st : CountDevice,
      (CountDevice.record_events st ts).conversion_factor = st.conversion_factor := by
  induction ts with
  | nil => intro st; rfl
  | cons t ts ih =>
      intro st
      show (CountDevice.record_events (CountDevice.record_event st t) ts).conversion_factor = _
      rw [ih]
      rfl

theorem count_tips_tips (st : TippingBucket) (n : Nat) :
    (TippingBucket.count_tips st n).tips = st.tips + n := by
  induction n with
  | zero => rfl
  | succ n ih => simp [TippingBucket.count_tips, TippingBucket.count_tip, ih]; omega

theorem count_tips_mm_per_tip (st : TippingBucket) (n : Nat) :
    (TippingBucket.count_tips st n).mm_per_tip = st.mm_per_tip := by
  induction n with
  | zero => rfl
  | succ n ih => simp [TippingBucket.count_tips, TippingBucket.count_tip, ih]

/-! ### Helper lemmas for `round_py` (shared) -/

theorem roundHalfEven_intCast (n : ℤ) : roundHalfEven (n : ℚ) = n := by
  unfold roundHalfEven
  rw [Int.floor_intCast]
  rw [if_pos]
  norm_num

theorem round_py_of_mul_eq (p : Nat) (x : ℚ) (n : ℤ) (h : x * 10 ^ p = (n : ℚ)) :
    round_py p x = (n : ℚ) / 10 ^ p := by
  unfold round_py
  rw [h, roundHalfEven_intCast]

/-! ### Claim theorems -/

/-- Claim C1 (confirmed): round-trip identity of the packet codec over
the wire schema `DATA_FORMAT = "!7fI5f"`. For every record `ws` valid
for the schema (13 fields, each a 32-bit quantity),
`struct.unpack(DATA_FORMAT, struct.pack(DATA_FORMAT, *ws))` returns
`ws` itself, and re-encoding anything the decoder returns for a frame
produced by this encoder reproduces that frame bit-for-bit. -/
theorem claim_C1_codec_roundtrip (ws : List Nat)
    (hlen : ws.length = DATA_FORMAT_field_count) (hv : ∀ w ∈ ws, w < 2 ^ 32) :
    struct_unpack (struct_pack ws) = Except.ok ws ∧
    ∀ r, struct_unpack (struct_pack ws) = Except.ok r →
      struct_pack r = struct_pack ws := by
  have h1 : struct_unpack (struct_pack ws) = Except.ok ws := by
    unfold struct_unpack
    rw [length_struct_pack, hlen, unpackWords_struct_pack ws hv]
    rfl
  refine ⟨h1, fun r hr => ?_⟩
  rw [h1] at hr
  injection hr with h
  rw [h]

/-- Witness for C1 at a concrete 13-field record (the `I` field at its
maximum 32-bit value). -/
theorem claim_C1_witness :
    List.length [12, 3, 0, 600, 2, 4294967295, 7, 8, 9, 10, 11, 21, 44] =
      DATA_FORMAT_field_count ∧
    struct_unpack (struct_pack [12, 3, 0, 600, 2, 4294967295, 7, 8, 9, 10, 11, 21, 44]) =
      Except.ok [12, 3, 0, 600, 2, 4294967295, 7, 8, 9, 10, 11, 21, 44] :=
  ⟨by decide,
    (claim_C1_codec_roundtrip [12, 3, 0, 600, 2, 4294967295, 7, 8, 9, 10, 11, 21, 44]
      (by decide) (by decide)).1⟩

/-- Claim C2 (code bug): the size-mismatch and no-data branches behave
as claimed — a 51-byte buffer makes `struct.unpack` fail with its size
error and `recieve_data_packet` swallows it returning `None`, and an
empty read returns `None` — but the successful-decode branch does not
return a named record: it raises `AttributeError`, because `link.py`
line 65 reads `ivaldi.monitor.VARIABLE_NAMES` and `monitor.py` defines
no such attribute (it defines `VARIABLES`). Evaluated here at the
52-byte all-zero frame. -/
theorem claim_C2_decode_failure_handling :
    struct_unpack (List.replicate 51 (byte 0)) =
      Except.error StructError.sizeMismatch ∧
    recieve_data_packet [] = Except.ok none ∧
    recieve_data_packet (List.replicate 51 (byte 0)) = Except.ok none ∧
    recieve_data_packet (List.replicate 52 (byte 0)) =
      Except.error PyError.attributeError :=
  ⟨rfl, rfl, rfl, rfl⟩

/-- Counterexample to C9: the frame the encoder produces for a concrete
record is 52 bytes long, not the claimed 36 bytes followed by one
delimiter byte (37 in all), and its final byte is the low byte of the
last field, not `0x0A`. -/
theorem claim_C9_cex :
    (struct_pack (data_to_pack 0 0 0 0 0 0 0 0 0 0 0 0 0)).length = 52 ∧
    (52 : Nat) ≠ 36 + 1 ∧
    (struct_pack (data_to_pack 0 0 0 0 0 0 0 0 0 0 0 0 0)).getLast? = some (byte 0) ∧
    byte 0 ≠ byte 10 := by
  refine ⟨rfl, by decide, rfl, by decide⟩

/-- Claim C9 as amended: every outbound frame is exactly
`struct.calcsize("!7fI5f") = 52` bytes — thirteen 4-byte big-endian
fields in the order of `data_to_pack` — with no delimiter byte
appended (the frame length is exactly 4 bytes per field); the receiver
reads a fixed-size buffer and decodes it directly: decode succeeds
exactly on 52-byte buffers, with no delimiter stripping, and on the
encoder's own frames it recovers the fields in order. -/
theorem claim_C9_frame_layout (ws : List Nat)
    (hlen : ws.length = DATA_FORMAT_field_count) (hv : ∀ w ∈ ws, w < 2 ^ 32) :
    (struct_pack ws).length = 4 * ws.length ∧
    (struct_pack ws).length = struct_calcsize ∧
    struct_calcsize = 52 ∧
    (∀ bs : List Byte, bs.length ≠ struct_calcsize →
      struct_unpack bs = Except.error StructError.sizeMismatch) ∧
    struct_unpack (struct_pack ws) = Except.ok ws := by
  refine ⟨length_struct_pack ws, ?_, rfl, ?_, ?_⟩
  · rw [length_struct_pack, hlen]
    rfl
  · intro bs hbs
    unfold struct_unpack
    rw [if_neg hbs]
  · unfold struct_unpack
    rw [length_struct_pack, hlen, unpackWords_struct_pack ws hv]
    rfl

/-- Witness for the amended C9 at the all-zero record. -/
theorem claim_C9_witness :
    List.length (data_to_pack 0 0 0 0 0 0 0 0 0 0 0 0 0) = DATA_FORMAT_field_count ∧
    (struct_pack (data_to_pack 0 0 0 0 0 0 0 0 0 0 0 0 0)).length = struct_calcsize ∧
    struct_unpack (struct_pack (data_to_pack 0 0 0 0 0 0 0 0 0 0 0 0 0)) =
      Except.ok (data_to_pack 0 0 0 0 0 0 0 0 0 0 0 0 0) :=
  ⟨by decide,
    (claim_C9_frame_layout (data_to_pack 0 0 0 0 0 0 0 0 0 0 0 0 0)
      (by decide) (by decide)).2.1,
    (claim_C9_frame_layout (data_to_pack 0 0 0 0 0 0 0 0 0 0 0 0 0)
      (by decide) (by decide)).2.2.2.2⟩

/-- Claim C4 (confirmed): after `N` edge events, the generic counter's
`output_value_total` is `round(N * conversion_factor, 2)` and the rain
gauge's `rain_mm` is `round(N * 0.2, 1)` — the code applies no offset
(equivalently, the claim's offset is fixed at `0`), and the rounding
precision is the per-profile constant (2 generic, 1 rain-mm). -/
theorem claim_C4_counter_total (ts : List ℚ) (conversion_factor t0 : ℚ) (n : Nat) :
    PRECISION_DEFAULT = 2 ∧
    RAIN_PRECISION_MM = 1 ∧
    MM_PER_TIP = 1 / 5 ∧
    CountDevice.output_value_total
        (CountDevice.record_events (CountDevice.init t0 conversion_factor) ts) =
      round_py 2 ((ts.length : ℚ) * conversion_factor) ∧
    TippingBucket.rain_mm (TippingBucket.count_tips (TippingBucket.init t0 MM_PER_TIP) n) =
      round_py 1 ((n : ℚ) * MM_PER_TIP) := by
  refine ⟨rfl, rfl, rfl, ?_, ?_⟩
  · unfold CountDevice.output_value_total
    rw [record_events_count, record_events_conversion_factor]
    show round_py PRECISION_DEFAULT ((((CountDevice.init t0 conversion_factor).count + ts.length : Nat) : ℚ) *
      (CountDevice.init t0 conversion_factor).conversion_factor) = _
    simp [CountDevice.init, PRECISION_DEFAULT]
  · unfold TippingBucket.rain_mm
    rw [count_tips_tips, count_tips_mm_per_tip]
    simp [TippingBucket.init, RAIN_PRECISION_MM]

/-- Counterexample to C5: at the reachable state where the single edge
event was recorded at the same monotonic instant as device creation
(`time.monotonic()` may return equal readings), the omitted-window
average is `0`: the strict filter `t > now - delta_t = start_time`
drops that event, while the claim's "full count over full elapsed
time" prescribes `round(1 / 2, 2) = 0.5`. -/
theorem claim_C5_cex :
    (CountDevice.record_event (CountDevice.init 0 1) 0).count = 1 ∧
    (CountDevice.record_event (CountDevice.init 0 1) 0).start_time = 0 ∧
    CountDevice.output_value_average
      (CountDevice.record_event (CountDevice.init 0 1) 0) 2 none = some 0 ∧
    round_py 2 ((1 : ℚ) / (2 - 0)) = 1 / 2 ∧
    some (0 : ℚ) ≠ some (1 / 2 : ℚ) := by
  refine ⟨rfl, rfl, ?_, ?_, by norm_num⟩
  · show CountDevice.output_value_average ⟨1, 1, [0], 0⟩ 2 none = some 0
    unfold CountDevice.output_value_average
    norm_num [List.filter, PRECISION_DEFAULT]
    rw [round_py_of_mul_eq 2 0 0 (by norm_num)]
    norm_num
  · rw [round_py_of_mul_eq 2 ((1 : ℚ) / (2 - 0)) 50 (by norm_num)]
    norm_num

/-- Claim C5 as amended: `output_value_average` counts exactly the
events with timestamp strictly greater than `now - W` and divides by
`min(W, elapsed)`; with the window omitted it behaves as with
`W = elapsed`, which equals the full count over the full elapsed time
provided every recorded timestamp is strictly later than `start_time`
(an event stamped exactly at `start_time` is dropped by the strict
filter) and the count matches the history. -/
theorem claim_C5_windowed_average (st : CountDevice) (now : ℚ)
    (h1 : ∀ t ∈ st.count_times, st.start_time < t)
    (h2 : st.count = st.count_times.length)
    (h3 : 0 < now - st.start_time) :
    CountDevice.output_value_average st now none =
      some (round_py 2 ((st.count : ℚ) / (now - st.start_time))) ∧
    ∀ period_s : ℚ, 0 < period_s →
      CountDevice.output_value_average st now (some period_s) =
        some (round_py 2
          (((st.count_times.filter (fun t => now - period_s < t)).length : ℚ) /
            min period_s (now - st.start_time))) := by
  have hfil : st.count_times.filter
      (fun t => decide (now - (now - st.start_time) < t)) = st.count_times := by
    apply List.filter_eq_self.mpr
    intro t ht
    have := h1 t ht
    rw [sub_sub_cancel]
    exact decide_eq_true this
  constructor
  · unfold CountDevice.output_value_average
    simp only [Option.getD_none]
    rw [if_neg (not_le.mpr h3), if_neg (by simp [min_self, h3.ne'] :
      ¬ min (now - st.start_time) (now - st.start_time) = 0)]
    rw [hfil, min_self, ← h2]
    rfl
  · intro period_s hW
    unfold CountDevice.output_value_average
    simp only [Option.getD_some]
    rw [if_neg (not_le.mpr hW), if_neg (lt_min hW h3).ne']
    rfl

/-- Witness for the amended C5: two events strictly after start, queried
at `now = 4` with the window omitted and with window `1`. -/
theorem claim_C5_witness :
    CountDevice.output_value_average (⟨1, 2, [1, 3], 0⟩ : CountDevice) 4 none =
      some (round_py 2 (((2 : Nat) : ℚ) / (4 - 0))) ∧
    CountDevice.output_value_average (⟨1, 2, [1, 3], 0⟩ : CountDevice) 4 (some 1) =
      some (round_py 2
        ((((([1, 3] : List ℚ).filter (fun t => (4 : ℚ) - 1 < t)).length : Nat) : ℚ) /
          min 1 (4 - 0))) := by
  have hh1 : ∀ t ∈ (⟨1, 2, [1, 3], 0⟩ : CountDevice).count_times,
      (⟨1, 2, [1, 3], 0⟩ : CountDevice).start_time < t := by
    intro t ht
    show (0 : ℚ) < t
    have : t = 1 ∨ t = 3 := by simpa using ht
    rcases this with rfl | rfl <;> norm_num
  have h := claim_C5_windowed_average (⟨1, 2, [1, 3], 0⟩ : CountDevice) 4 hh1 rfl
    (by norm_num)
  exact ⟨h.1, h.2 1 (by norm_num)⟩

/-- Counterexample to C6: starting from the reachable state with one
recorded event, `reset_count` zeroes `count` but keeps the timestamp
history, so `count` (0) no longer equals the history length (1), and
the state is inconsistent with windowed queries: the total reads `0`
while a windowed average still sees the old event and reads `0.5`. -/
theorem claim_C6_cex :
    (CountDevice.reset_count (CountDevice.record_event (CountDevice.init 0 1) 1)).count = 0 ∧
    (CountDevice.reset_count
      (CountDevice.record_event (CountDevice.init 0 1) 1)).count_times.length = 1 ∧
    (0 : Nat) ≠ 1 ∧
    CountDevice.output_value_total
      (CountDevice.reset_count (CountDevice.record_event (CountDevice.init 0 1) 1)) = 0 ∧
    CountDevice.output_value_average
      (CountDevice.reset_count (CountDevice.record_event (CountDevice.init 0 1) 1))
      2 (some 2) = some (1 / 2) := by
  refine ⟨rfl, rfl, by norm_num, ?_, ?_⟩
  · show CountDevice.output_value_total ⟨1, 0, [1], 0⟩ = 0
    unfold CountDevice.output_value_total
    rw [round_py_of_mul_eq _ _ 0 (by norm_num [PRECISION_DEFAULT])]
    norm_num
  · show CountDevice.output_value_average ⟨1, 0, [1], 0⟩ 2 (some 2) = some (1 / 2)
    unfold CountDevice.output_value_average
    norm_num [List.filter, PRECISION_DEFAULT]
    rw [round_py_of_mul_eq _ _ 50 (by norm_num)]
    norm_num

/-- Claim C6 as amended: the edge callback preserves
`count = len(count_times)`, and `reset_time` preserves it; but
`reset_count` (and therefore the combined `reset`) zeroes `count` while
leaving the timestamp history in place, so the invariant survives a
count reset only when no events had been recorded. Independence holds
as claimed: `reset_count` leaves the start time intact, `reset_time`
leaves the count (and history) intact, and `reset` is exactly
`reset_count` followed by `reset_time`. -/
theorem claim_C6_reset_independence :
    (∀ (st : CountDevice) (now : ℚ), st.count = st.count_times.length →
      (CountDevice.record_event st now).count =
        (CountDevice.record_event st now).count_times.length) ∧
    (∀ (st : CountDevice) (now : ℚ), st.count = st.count_times.length →
      (CountDevice.reset_time st now).count =
        (CountDevice.reset_time st now).count_times.length) ∧
    (∀ st : CountDevice, (CountDevice.reset_count st).count = 0 ∧
      (CountDevice.reset_count st).count_times = st.count_times ∧
      (CountDevice.reset_count st).start_time = st.start_time) ∧
    (∀ (st : CountDevice) (now : ℚ), (CountDevice.reset_time st now).count = st.count ∧
      (CountDevice.reset_time st now).count_times = st.count_times ∧
      (CountDevice.reset_time st now).start_time = now) ∧
    (∀ (st : CountDevice) (now : ℚ),
      CountDevice.reset st now = CountDevice.reset_time (CountDevice.reset_count st) now) := by
  refine ⟨?_, ?_, ?_, ?_, ?_⟩
  · intro st now h
    simp [CountDevice.record_event, h]
  · intro st now h
    simpa [CountDevice.reset_time] using h
  · intro st
    exact ⟨rfl, rfl, rfl⟩
  · intro st now
    exact ⟨rfl, rfl, rfl⟩
  · intro st now
    rfl

/-- Witness for the amended C6 at a concrete state satisfying the
invariant. -/
theorem claim_C6_witness :
    (CountDevice.record_event (CountDevice.init 0 1) 3).count =
      (CountDevice.record_event (CountDevice.init 0 1) 3).count_times.length ∧
    (CountDevice.reset_time (CountDevice.init 0 1) 5).count =
      (CountDevice.reset_time (CountDevice.init 0 1) 5).count_times.length :=
  ⟨claim_C6_reset_independence.1 (CountDevice.init 0 1) 3 rfl,
    claim_C6_reset_independence.2.1 (CountDevice.init 0 1) 5 rfl⟩

/-- Counterexample to C7: at a tick that started at `0` with period `1`
whose work ran until `now = 2` (past the deadline), the loop does not
proceed immediately: it re-arms the wakeup to `now + 0.01` and the next
`time.sleep` argument is `SLEEP_TIME_MINIMUM = 0.01`, a strictly
positive sleep. -/
theorem claim_C7_cex :
    next_wakeup 0 1 2 = 2 + SLEEP_TIME_MINIMUM ∧
    sleep_amount (next_wakeup 0 1 2) 2 = SLEEP_TIME_MINIMUM ∧
    SLEEP_TIME_MINIMUM ≠ (0 : ℚ) := by
  refine ⟨by norm_num [next_wakeup], ?_, by norm_num [SLEEP_TIME_MINIMUM]⟩
  norm_num [next_wakeup, sleep_amount, SLEEP_TIME_MINIMUM, SLEEP_TICK_S]

/-- Claim C7 as amended: the effective inter-tick sleep is never
negative (each `time.sleep` argument is clamped at `0`), and whenever
the work runs to or past the tick's deadline the loop re-arms the
wakeup to `now + SLEEP_TIME_MINIMUM`, so the next tick fires after a
single minimum sleep of `0.01 s` rather than immediately. -/
theorem claim_C7_overrun (w n tick_start period_s now : ℚ)
    (h : tick_start + period_s ≤ now) :
    0 ≤ sleep_amount w n ∧
    next_wakeup tick_start period_s now = now + SLEEP_TIME_MINIMUM ∧
    sleep_amount (next_wakeup tick_start period_s now) now = SLEEP_TIME_MINIMUM := by
  refine ⟨le_max_right _ _, ?_, ?_⟩
  · unfold next_wakeup
    rw [if_pos h]
  · unfold next_wakeup sleep_amount
    rw [if_pos h]
    norm_num [SLEEP_TIME_MINIMUM, SLEEP_TICK_S]

/-- Witness for the amended C7 at the concrete overrun tick of the
counterexample's shape. -/
theorem claim_C7_witness :
    (0 : ℚ) + 1 ≤ 2 ∧
    (0 : ℚ) ≤ sleep_amount 0 0 ∧
    next_wakeup 0 1 2 = 2 + SLEEP_TIME_MINIMUM ∧
    sleep_amount (next_wakeup 0 1 2) 2 = SLEEP_TIME_MINIMUM :=
  ⟨by norm_num, (claim_C7_overrun 0 0 0 1 2 (by norm_num)).1,
    (claim_C7_overrun 0 0 0 1 2 (by norm_num)).2.1,
    (claim_C7_overrun 0 0 0 1 2 (by norm_num)).2.2⟩

/-- Counterexample to C8: querying a freshly created counter (elapsed
time `0`) with the positive window `1` reaches the division
`count / min(1, 0)` — a `ZeroDivisionError` (the guard only checks
`period_s <= 0`), so `output_value_average` is not total. -/
theorem claim_C8_cex :
    CountDevice.output_value_average (CountDevice.init 0 1) 0 (some 1) = none := by
  show CountDevice.output_value_average ⟨1, 0, [], 0⟩ 0 (some 1) = none
  unfold CountDevice.output_value_average
  norm_num

/-- Claim C8 as amended: for every window `W <= 0` the average is `0`
(no division is attempted), and the average is total whenever the
elapsed time is positive; but with `W > 0` and zero elapsed time the
division by `min(W, elapsed) = 0` raises, so totality holds only away
from `elapsed = 0`. -/
theorem claim_C8_average_totality :
    (∀ (st : CountDevice) (now period_s : ℚ), period_s ≤ 0 →
      CountDevice.output_value_average st now (some period_s) = some 0) ∧
    (∀ (st : CountDevice) (now : ℚ) (period? : Option ℚ), 0 < now - st.start_time →
      (CountDevice.output_value_average st now period?).isSome = true) := by
  constructor
  · intro st now period_s h
    unfold CountDevice.output_value_average
    simp only [Option.getD_some]
    rw [if_pos h]
  · intro st now period? h3
    match period? with
    | none =>
        unfold CountDevice.output_value_average
        simp only [Option.getD_none]
        rw [if_neg (not_le.mpr h3), if_neg (by simp [min_self, h3.ne'] :
          ¬ min (now - st.start_time) (now - st.start_time) = 0)]
        rfl
    | some period_s =>
        by_cases hW : period_s ≤ 0
        · unfold CountDevice.output_value_average
          simp only [Option.getD_some]
          rw [if_pos hW]
          rfl
        · unfold CountDevice.output_value_average
          simp only [Option.getD_some]
          rw [if_neg hW, if_neg (lt_min (not_le.mp hW) h3).ne']
          rfl

/-- Witness for the amended C8 at a concrete device. -/
theorem claim_C8_witness :
    CountDevice.output_value_average (CountDevice.init 0 1) 1 (some (-1)) = some 0 ∧
    (CountDevice.output_value_average (CountDevice.init 0 1) 1 none).isSome = true :=
  ⟨claim_C8_average_totality.1 (CountDevice.init 0 1) 1 (-1) (by norm_num),
    claim_C8_average_totality.2 (CountDevice.init 0 1) 1 none
      (by norm_num [CountDevice.init])⟩

end Ivaldi

namespace Ivaldi

/-! ### Helper lemmas for the scheduler (shared) -/

theorem loopStep_exit_frozen {period_s : ℚ} {s sf : LoopState}
    (h : LoopStep period_s s sf) (hf : s.exitFlag = true) :
    sf.exitFlag = true ∧ sf.calls = s.calls ∧ sf.now = s.now := by
  cases h with
  | signal => exact ⟨rfl, rfl, rfl⟩
  | outer_exit hp hf2 => exact ⟨hf, rfl, rfl⟩
  | work d hd hp hf2 => rw [hf] at hf2; cases hf2
  | adjust_overrun hp hw => exact ⟨hf, rfl, rfl⟩
  | adjust_ok hp hw => exact ⟨hf, rfl, rfl⟩
  | inner_exit_flag hp hf2 => exact ⟨hf, rfl, rfl⟩
  | inner_exit_time hp hw => exact ⟨hf, rfl, rfl⟩
  | inner_sleep hp hf2 hw => rw [hf] at hf2; cases hf2

theorem loopSteps_exit_frozen {period_s : ℚ} {s sf : LoopState}
    (h : Relation.ReflTransGen (LoopStep period_s) s sf) (hf : s.exitFlag = true) :
    sf.exitFlag = true ∧ sf.calls = s.calls ∧ sf.now = s.now := by
  induction h with
  | refl => exact ⟨hf, rfl, rfl⟩
  | tail hab hbc ih =>
      obtain ⟨h1, h2, h3⟩ := ih
      obtain ⟨g1, g2, g3⟩ := loopStep_exit_frozen hbc h1
      exact ⟨g1, g2.trans h2, g3.trans h3⟩

theorem sleep_amount_le_tick (w n : ℚ) : sleep_amount w n ≤ SLEEP_TICK_S := by
  unfold sleep_amount
  apply max_le (min_le_left _ _)
  norm_num [SLEEP_TICK_S]

theorem loop_exits_after_flag (period_s : ℚ) (s : LoopState)
    (hf : s.exitFlag = true) :
    ∃ sFin, Relation.ReflTransGen (LoopStep period_s) s sFin ∧
      sFin.phase = LoopPhase.finished ∧ sFin.calls = s.calls ∧ sFin.now = s.now := by
  rcases hphase : s.phase with _ | _ | _ | _
  · -- outerCheck: one exit step
    exact ⟨⟨s.exitFlag, s.now, s.wakeup, s.calls, LoopPhase.finished⟩,
      Relation.ReflTransGen.single (LoopStep.outer_exit s hphase hf), rfl, rfl, rfl⟩
  · -- postWork: adjust, leave the inner loop on the flag, exit
    by_cases hw : s.wakeup ≤ s.now
    · refine ⟨⟨s.exitFlag, s.now, s.now + SLEEP_TIME_MINIMUM, s.calls, LoopPhase.finished⟩,
        ?_, rfl, rfl, rfl⟩
      refine Relation.ReflTransGen.head (LoopStep.adjust_overrun s hphase hw) ?_
      refine Relation.ReflTransGen.head (LoopStep.inner_exit_flag _ rfl hf) ?_
      exact Relation.ReflTransGen.single (LoopStep.outer_exit _ rfl hf)
    · refine ⟨⟨s.exitFlag, s.now, s.wakeup, s.calls, LoopPhase.finished⟩, ?_, rfl, rfl, rfl⟩
      refine Relation.ReflTransGen.head (LoopStep.adjust_ok s hphase (not_le.mp hw)) ?_
      refine Relation.ReflTransGen.head (LoopStep.inner_exit_flag _ rfl hf) ?_
      exact Relation.ReflTransGen.single (LoopStep.outer_exit _ rfl hf)
  · -- innerCheck: leave the inner loop on the flag, then exit
    refine ⟨⟨s.exitFlag, s.now, s.wakeup, s.calls, LoopPhase.finished⟩, ?_, rfl, rfl, rfl⟩
    refine Relation.ReflTransGen.head (LoopStep.inner_exit_flag s hphase hf) ?_
    exact Relation.ReflTransGen.single (LoopStep.outer_exit _ rfl hf)
  · -- already finished
    exact ⟨s, Relation.ReflTransGen.refl, hphase, rfl, rfl⟩

/-- Claim C3 (confirmed): over the small-step model of `_run_periodic`,
(i) once `EXIT_EVENT` is set it is never cleared, and from that point no
further `func` invocation occurs and no further time passes in the
loop's own steps; (ii) every step taken from the sleep phase advances
the clock by at most one `SLEEP_TICK_S` (each `time.sleep` argument is
capped by the tick granularity, so an in-flight sleep wakes within one
tick); (iii) from any state with the flag set the loop reaches
`finished` with no additional `func` call and no additional time. -/
theorem claim_C3_cancellation (period_s : ℚ) (s sf : LoopState) :
    (Relation.ReflTransGen (LoopStep period_s) s sf → s.exitFlag = true →
      sf.exitFlag = true ∧ sf.calls = s.calls ∧ sf.now = s.now) ∧
    (LoopStep period_s s sf → s.phase = LoopPhase.innerCheck →
      sf.now - s.now ≤ SLEEP_TICK_S) ∧
    (s.exitFlag = true →
      ∃ sFin, Relation.ReflTransGen (LoopStep period_s) s sFin ∧
        sFin.phase = LoopPhase.finished ∧ sFin.calls = s.calls ∧ sFin.now = s.now) := by
  refine ⟨fun h hf => loopSteps_exit_frozen h hf, fun h hp => ?_,
    fun hf => loop_exits_after_flag period_s s hf⟩
  cases h with
  | signal => norm_num [SLEEP_TICK_S]
  | outer_exit hp2 hf2 => rw [hp] at hp2; cases hp2
  | work d hd hp2 hf2 => rw [hp] at hp2; cases hp2
  | adjust_overrun hp2 hw => rw [hp] at hp2; cases hp2
  | adjust_ok hp2 hw => rw [hp] at hp2; cases hp2
  | inner_exit_flag hp2 hf2 => norm_num [SLEEP_TICK_S]
  | inner_exit_time hp2 hw => norm_num [SLEEP_TICK_S]
  | inner_sleep hp2 hf2 hw =>
      have := sleep_amount_le_tick s.wakeup s.now
      show s.now + sleep_amount s.wakeup s.now - s.now ≤ SLEEP_TICK_S
      linarith

/-- Witness for C3: a concrete exit step from a flagged state, and a
concrete bounded sleep step. -/
theorem claim_C3_witness :
    ((⟨true, 0, 0, 3, LoopPhase.finished⟩ : LoopState).exitFlag = true ∧
      (⟨true, 0, 0, 3, LoopPhase.finished⟩ : LoopState).calls =
        (⟨true, 0, 0, 3, LoopPhase.outerCheck⟩ : LoopState).calls ∧
      (⟨true, 0, 0, 3, LoopPhase.finished⟩ : LoopState).now =
        (⟨true, 0, 0, 3, LoopPhase.outerCheck⟩ : LoopState).now) ∧
    (⟨false, 0 + sleep_amount 2 0, 2, 0, LoopPhase.innerCheck⟩ : LoopState).now -
      (⟨false, 0, 2, 0, LoopPhase.innerCheck⟩ : LoopState).now ≤ SLEEP_TICK_S :=
  ⟨(claim_C3_cancellation 1 ⟨true, 0, 0, 3, LoopPhase.outerCheck⟩
      ⟨true, 0, 0, 3, LoopPhase.finished⟩).1
      (Relation.ReflTransGen.single (LoopStep.outer_exit _ rfl rfl)) rfl,
    (claim_C3_cancellation 1 ⟨false, 0, 2, 0, LoopPhase.innerCheck⟩
      ⟨false, 0 + sleep_amount 2 0, 2, 0, LoopPhase.innerCheck⟩).2.1
      (LoopStep.inner_sleep _ rfl rfl (by norm_num)) rfl⟩

/-! ### Drift bound for the exact-sleep run -/

theorem sleepLoop_exact : ∀ (fuel : Nat) (wakeup now : ℚ), now ≤ wakeup →
    wakeup - now ≤ fuel * SLEEP_TICK_S → sleepLoop wakeup now fuel = wakeup := by
  intro fuel
  induction fuel with
  | zero =>
      intro wakeup now h1 h2
      norm_num at h2
      have : wakeup = now := le_antisymm (by linarith) h1
      simp [sleepLoop, this]
  | succ fuel ih =>
      intro wakeup now h1 h2
      unfold sleepLoop
      by_cases hle : wakeup ≤ now
      · rw [if_pos hle]
        exact le_antisymm h1 hle
      · rw [if_neg hle]
        have hlt : now < wakeup := not_le.mp hle
        have htick : (0 : ℚ) < SLEEP_TICK_S := by norm_num [SLEEP_TICK_S]
        have hsa : sleep_amount wakeup now = min SLEEP_TICK_S (wakeup - now) := by
          unfold sleep_amount
          exact max_eq_left (le_min htick.le (by linarith))
        rw [hsa]
        rcases le_or_lt (wakeup - now) SLEEP_TICK_S with hc | hc
        · rw [min_eq_right hc, show now + (wakeup - now) = wakeup from by ring]
          apply ih wakeup wakeup le_rfl
          have : (0 : ℚ) ≤ fuel * SLEEP_TICK_S :=
            mul_nonneg (Nat.cast_nonneg fuel) htick.le
          linarith
        · rw [min_eq_left hc.le]
          push_cast at h2
          exact ih wakeup (now + SLEEP_TICK_S) (by linarith) (by linarith)

theorem tick_next_start_exact (period_s : ℚ) (fuel : Nat) (t : ℚ)
    (hP : 0 < period_s) (hfuel : period_s ≤ fuel * SLEEP_TICK_S) :
    tick_next_start period_s fuel t = t + period_s := by
  unfold tick_next_start next_wakeup
  rw [if_neg (by linarith : ¬ t + period_s ≤ t)]
  exact sleepLoop_exact fuel (t + period_s) t (by linarith) (by linarith)

theorem kth_tick_start_exact (start period_s : ℚ) (fuel : Nat)
    (hP : 0 < period_s) (hfuel : period_s ≤ fuel * SLEEP_TICK_S) :
    ∀ K : Nat, kth_tick_start start period_s fuel K = start + K * period_s := by
  intro K
  induction K with
  | zero => simp [kth_tick_start]
  | succ K ih =>
      show tick_next_start period_s fuel (kth_tick_start start period_s fuel K) = _
      rw [tick_next_start_exact period_s fuel _ hP hfuel, ih]
      push_cast
      ring

/-- Claim C10 (confirmed): in the exact-sleep, zero-work-duration run,
the `K`-th tick of `_run_periodic` starts exactly at
`start + K * period_s` — each tick re-anchors its deadline to its own
start, and the bounded sleeps land exactly on the wakeup time — so the
start time is (trivially) within one `SLEEP_TICK_S` of the nominal
schedule and drift does not accumulate. `fuel` bounds the inner-loop
iterations per tick and suffices as soon as
`period_s ≤ fuel * SLEEP_TICK_S`. -/
theorem claim_C10_drift_bound (start period_s : ℚ) (fuel K : Nat)
    (hP : 0 < period_s) (hfuel : period_s ≤ fuel * SLEEP_TICK_S) :
    kth_tick_start start period_s fuel K = start + K * period_s ∧
    |kth_tick_start start period_s fuel K - (start + K * period_s)| ≤ SLEEP_TICK_S := by
  have h := kth_tick_start_exact start period_s fuel hP hfuel K
  refine ⟨h, ?_⟩
  rw [h]
  norm_num [SLEEP_TICK_S]

/-- Witness for C10: period `1`, fuel `2`, tick `3`. -/
theorem claim_C10_witness :
    (0 : ℚ) < 1 ∧ (1 : ℚ) ≤ ((2 : Nat) : ℚ) * SLEEP_TICK_S ∧
    kth_tick_start 0 1 2 3 = 0 + ((3 : Nat) : ℚ) * 1 ∧
    |kth_tick_start 0 1 2 3 - (0 + ((3 : Nat) : ℚ) * 1)| ≤ SLEEP_TICK_S :=
  ⟨by norm_num, by norm_num [SLEEP_TICK_S],
    (claim_C10_drift_bound 0 1 2 3 (by norm_num) (by norm_num [SLEEP_TICK_S])).1,
    (claim_C10_drift_bound 0 1 2 3 (by norm_num) (by norm_num [SLEEP_TICK_S])).2⟩

end Ivaldi
